import Mathlib

/-!
Verification of the PlacePulse mood-search core: a shallow embedding of
`src/utils/moodMapping.js` (mood registry and relevance scorer),
`src/utils/filterSort.js` (filter/sort pipeline),
`src/services/placesApi.js` (result aggregation and the details cache), and
the search-session cancellation logic of `src/hooks/usePlaces.js`.

JavaScript numbers are modelled as rationals (`ℚ`), provider-assigned place
ids as naturals, strings as Lean `String` (with substring tests on their
character lists), and optional/undefined fields as `Option`.  JavaScript
truthiness tests on numbers (`if (place.rating)`) are modelled as
"present and nonzero".
-/

namespace PlacePulse

/-! ### String helpers (JS `toLowerCase`, `trim`, `includes`, `replace hyphens with spaces`) -/

/-- Boolean list-prefix test, used to express the JS `String.prototype.includes`. -/
def isPrefixB : List Char → List Char → Bool
  | [], _ => true
  | _ :: _, [] => false
  | a :: as, b :: bs => a == b && isPrefixB as bs

/-- `includesB hay sub` models JS `hay.includes(sub)` on character lists
(`"".includes("")` is `true`). -/
def includesB : List Char → List Char → Bool
  | [], sub => isPrefixB sub []
  | a :: t, sub => isPrefixB sub (a :: t) || includesB t sub

/-- JS `s.toLowerCase()` (ASCII-faithful). -/
def jsToLower (s : List Char) : List Char := s.map Char.toLower

/-- JS `s.trim()`: strip leading and trailing whitespace. -/
def jsTrim (s : List Char) : List Char :=
  ((s.dropWhile Char.isWhitespace).reverse.dropWhile Char.isWhitespace).reverse

/-- JS `s.replace hyphens with spaces`. -/
def hyphensToSpaces (s : List Char) : List Char :=
  s.map fun c => if c = '-' then ' ' else c

/-- `mood.toLowerCase().trim().replace hyphens with spaces`
(moodMapping.js line 693). -/
def normalizeMood (s : List Char) : List Char :=
  hyphensToSpaces (jsTrim (jsToLower s))

/-! ### Mood registry (`moodMappings`, moodMapping.js lines 417-684) -/

/-- One entry of the `moodMappings` table.  `preferredPrice` is `Option`
because the scorer guards on its JS-presence (`moodMapping.preferredPrice`). -/
structure MoodMapping where
  types : List String
  keywords : List String
  description : String
  preferredPrice : Option (List Int)
  prioritizeRating : Bool
deriving DecidableEq

/-- The static mood table, transcribed entry for entry in source order
(order is significant for partial and keyword matching). -/
def moodMappings : List (String × MoodMapping) :=
  [ ("work",
     { types := ["cafe", "library"],
       keywords := ["coworking", "workspace", "study cafe", "wifi cafe", "coffee shop work"],
       description := "Places to work or study",
       preferredPrice := some [1, 2], prioritizeRating := true }),
    ("study",
     { types := ["library", "cafe"],
       keywords := ["study", "quiet", "library", "reading room"],
       description := "Quiet places to focus",
       preferredPrice := some [0, 1], prioritizeRating := false }),
    ("meeting",
     { types := ["cafe", "restaurant"],
       keywords := ["business", "meeting", "conference cafe", "professional"],
       description := "Places for business meetings",
       preferredPrice := some [2, 3], prioritizeRating := true }),
    ("date",
     { types := ["restaurant", "bar", "cafe"],
       keywords := ["romantic", "dinner", "lounge", "cocktail", "candlelit", "intimate",
                    "wine bar", "rooftop"],
       description := "Romantic spots for dates",
       preferredPrice := some [2, 3, 4], prioritizeRating := true }),
    ("drinks",
     { types := ["bar", "night_club", "cafe"],
       keywords := ["pub", "cocktail", "wine bar", "brewery", "beer", "happy hour",
                    "sports bar"],
       description := "Places for drinks",
       preferredPrice := some [2, 3], prioritizeRating := true }),
    ("nightlife",
     { types := ["night_club", "bar"],
       keywords := ["club", "dance", "nightlife", "dj", "party", "lounge"],
       description := "Night entertainment venues",
       preferredPrice := some [2, 3, 4], prioritizeRating := false }),
    ("quick bite",
     { types := ["restaurant", "meal_takeaway", "bakery", "cafe"],
       keywords := ["fast food", "quick", "takeaway", "grab and go", "snack", "sandwich",
                    "burger", "pizza"],
       description := "Fast and convenient food",
       preferredPrice := some [1, 2], prioritizeRating := false }),
    ("breakfast",
     { types := ["cafe", "bakery", "restaurant"],
       keywords := ["breakfast", "brunch", "pancakes", "eggs", "morning", "diner"],
       description := "Morning meals",
       preferredPrice := some [1, 2], prioritizeRating := true }),
    ("brunch",
     { types := ["restaurant", "cafe"],
       keywords := ["brunch", "breakfast", "mimosa", "sunday brunch", "eggs benedict"],
       description := "Brunch spots",
       preferredPrice := some [2, 3], prioritizeRating := true }),
    ("lunch",
     { types := ["restaurant", "cafe", "meal_takeaway"],
       keywords := ["lunch", "midday", "lunch special", "salad", "soup"],
       description := "Lunch options",
       preferredPrice := some [1, 2, 3], prioritizeRating := true }),
    ("dinner",
     { types := ["restaurant"],
       keywords := ["dinner", "fine dining", "evening", "gourmet", "steakhouse", "seafood"],
       description := "Dinner restaurants",
       preferredPrice := some [2, 3, 4], prioritizeRating := true }),
    ("coffee",
     { types := ["cafe"],
       keywords := ["coffee", "espresso", "latte", "cappuccino", "coffee shop",
                    "specialty coffee", "barista"],
       description := "Coffee shops",
       preferredPrice := some [1, 2], prioritizeRating := true }),
    ("dessert",
     { types := ["bakery", "cafe"],
       keywords := ["dessert", "ice cream", "cake", "pastry", "sweet", "gelato", "cupcake",
                    "chocolate"],
       description := "Sweet treats",
       preferredPrice := some [1, 2], prioritizeRating := true }),
    ("budget",
     { types := ["restaurant", "cafe", "meal_takeaway"],
       keywords := ["cheap", "affordable", "budget", "value", "deals", "happy hour",
                    "lunch special"],
       description := "Budget-friendly options",
       preferredPrice := some [0, 1], prioritizeRating := false }),
    ("fancy",
     { types := ["restaurant", "bar"],
       keywords := ["upscale", "fine dining", "luxury", "gourmet", "michelin", "elegant",
                    "exclusive"],
       description := "Upscale experiences",
       preferredPrice := some [3, 4], prioritizeRating := true }),
    ("chill",
     { types := ["cafe", "park", "bar"],
       keywords := ["relax", "chill", "cozy", "lounge", "quiet", "peaceful", "laid back"],
       description := "Relaxed atmosphere",
       preferredPrice := some [1, 2], prioritizeRating := true }),
    ("spa",
     { types := ["spa", "beauty_salon"],
       keywords := ["massage", "wellness", "relaxation", "facial", "sauna", "day spa"],
       description := "Spa and wellness",
       preferredPrice := some [2, 3, 4], prioritizeRating := true }),
    ("family",
     { types := ["restaurant", "park", "amusement_park", "zoo", "aquarium"],
       keywords := ["family friendly", "kids", "children", "family restaurant", "playground",
                    "kid menu"],
       description := "Family-friendly places",
       preferredPrice := some [1, 2], prioritizeRating := true }),
    ("kids",
     { types := ["park", "amusement_park", "zoo", "aquarium"],
       keywords := ["playground", "kids", "family", "children", "play area", "arcade"],
       description := "Kid-friendly activities",
       preferredPrice := some [1, 2], prioritizeRating := true }),
    ("outdoors",
     { types := ["park", "campground", "natural_feature"],
       keywords := ["outdoor", "nature", "hiking", "trail", "garden", "scenic",
                    "walking path"],
       description := "Outdoor activities",
       preferredPrice := some [0, 1], prioritizeRating := false }),
    ("nature",
     { types := ["park", "campground"],
       keywords := ["nature", "garden", "botanical", "wildlife", "scenic", "green space"],
       description := "Natural spaces",
       preferredPrice := some [0, 1], prioritizeRating := false }),
    ("picnic",
     { types := ["park"],
       keywords := ["picnic", "garden", "outdoor", "lawn", "green space", "public park"],
       description := "Picnic spots",
       preferredPrice := some [0], prioritizeRating := false }),
    ("fitness",
     { types := ["gym", "park"],
       keywords := ["fitness", "workout", "exercise", "training", "crossfit", "gym near me"],
       description := "Fitness facilities",
       preferredPrice := some [1, 2, 3], prioritizeRating := true }),
    ("gym",
     { types := ["gym"],
       keywords := ["gym", "fitness center", "workout", "health club", "24 hour gym"],
       description := "Gyms and fitness centers",
       preferredPrice := some [1, 2, 3], prioritizeRating := true }),
    ("yoga",
     { types := ["gym", "spa"],
       keywords := ["yoga", "pilates", "meditation", "yoga studio", "wellness"],
       description := "Yoga and wellness studios",
       preferredPrice := some [2, 3], prioritizeRating := true }),
    ("entertainment",
     { types := ["movie_theater", "bowling_alley", "amusement_park", "casino"],
       keywords := ["entertainment", "fun", "games", "arcade", "bowling", "escape room",
                    "karaoke"],
       description := "Entertainment venues",
       preferredPrice := some [2, 3], prioritizeRating := true }),
    ("movies",
     { types := ["movie_theater"],
       keywords := ["cinema", "movie", "film", "theater", "imax", "movie theatre"],
       description := "Movie theaters",
       preferredPrice := some [2], prioritizeRating := true }),
    ("culture",
     { types := ["museum", "art_gallery", "library"],
       keywords := ["museum", "art", "culture", "history", "exhibition", "gallery"],
       description := "Cultural attractions",
       preferredPrice := some [1, 2], prioritizeRating := true }),
    ("art",
     { types := ["art_gallery", "museum"],
       keywords := ["art", "gallery", "exhibition", "contemporary art", "art museum"],
       description := "Art venues",
       preferredPrice := some [1, 2], prioritizeRating := true }),
    ("music",
     { types := ["bar", "night_club"],
       keywords := ["live music", "concert", "jazz", "music venue", "live band", "open mic"],
       description := "Live music venues",
       preferredPrice := some [2, 3], prioritizeRating := true }),
    ("shopping",
     { types := ["shopping_mall", "department_store", "clothing_store"],
       keywords := ["shopping", "mall", "retail", "boutique", "shopping center", "stores"],
       description := "Shopping destinations",
       preferredPrice := some [1, 2, 3], prioritizeRating := false }),
    ("groceries",
     { types := ["supermarket", "grocery_or_supermarket"],
       keywords := ["grocery", "supermarket", "food store", "organic", "market"],
       description := "Grocery stores",
       preferredPrice := some [1, 2], prioritizeRating := false }),
    ("gas",
     { types := ["gas_station"],
       keywords := ["gas", "fuel", "petrol", "gas station", "fuel station"],
       description := "Gas stations",
       preferredPrice := some [1], prioritizeRating := false }),
    ("atm",
     { types := ["atm", "bank"],
       keywords := ["atm", "bank", "cash", "withdrawal"],
       description := "ATMs and banks",
       preferredPrice := some [0], prioritizeRating := false }),
    ("pharmacy",
     { types := ["pharmacy", "drugstore"],
       keywords := ["pharmacy", "drugstore", "medicine", "prescription"],
       description := "Pharmacies",
       preferredPrice := some [1, 2], prioritizeRating := false }) ]

/-- The generic fallback profile synthesized by `getMoodMapping`
(moodMapping.js lines 727-733). -/
def moodFallback (nm : List Char) : MoodMapping :=
  { types := ["restaurant", "cafe"],
    keywords := [String.mk nm],
    description := "General search",
    preferredPrice := some [1, 2, 3],
    prioritizeRating := true }

/-- Direct-key match predicate (`moodMappings[normalizedMood]`). -/
def directKeyMatch (nm : List Char) (kv : String × MoodMapping) : Bool :=
  kv.1.toList == nm

/-- Hyphen-normalized key match (`normalizedKeys.indexOf(normalizedMood)`). -/
def hyphenKeyMatch (nm : List Char) (kv : String × MoodMapping) : Bool :=
  hyphensToSpaces kv.1.toList == nm

/-- Substring match on keys (`normalizedKey.includes(normalizedMood) ||
normalizedMood.includes(normalizedKey)`). -/
def substringKeyMatch (nm : List Char) (kv : String × MoodMapping) : Bool :=
  includesB (hyphensToSpaces kv.1.toList) nm || includesB nm (hyphensToSpaces kv.1.toList)

/-- Keyword match (`mapping.keywords.some(keyword => keyword.includes(normalizedMood)
|| normalizedMood.includes(keyword))`). -/
def keywordEntryMatch (nm : List Char) (kv : String × MoodMapping) : Bool :=
  kv.2.keywords.any fun kw => includesB kw.toList nm || includesB nm kw.toList

/-- The string-keyed members every plain object literal inherits from
`Object.prototype`, in specification order.  A property read
`moodMappings[key]` falls through to these when `key` is not an own key, and
each of their values is a function or an object, hence truthy in JS. -/
def objectPrototypeKeys : List String :=
  ["constructor", "hasOwnProperty", "isPrototypeOf", "propertyIsEnumerable",
   "toLocaleString", "toString", "valueOf", "__proto__",
   "__defineGetter__", "__defineSetter__", "__lookupGetter__", "__lookupSetter__"]

/-- What `getMoodMapping` can return: a mood-profile object (an own table
entry or the synthesized fallback), or a member inherited from
`Object.prototype` — a function or object that has no `types`, `keywords`,
`preferredPrice` or `prioritizeRating` fields at all. -/
inductive MoodLookup where
  | profile (m : MoodMapping)
  | inheritedProperty (name : String)
deriving DecidableEq

/-- The JS property read `moodMappings[nm]`: an own key wins, otherwise the
prototype chain is consulted; `none` models `undefined`, which is falsy, so
the guard `if (moodMappings[normalizedMood])` passes exactly on `some`. -/
def moodMappingsRead (nm : List Char) : Option MoodLookup :=
  match moodMappings.find? (directKeyMatch nm) with
  | some kv => some (MoodLookup.profile kv.2)
  | none =>
    match objectPrototypeKeys.find? (fun k => k.toList == nm) with
    | some k => some (MoodLookup.inheritedProperty k)
    | none => none

/-- The `.types` field of a lookup result: a profile carries its category
list, an inherited prototype member has none (`undefined`). -/
def moodLookupTypes : MoodLookup → Option (List String)
  | MoodLookup.profile m => some m.types
  | MoodLookup.inheritedProperty _ => none

/-- The four-stage lookup of `getMoodMapping` on the already-normalized
input: truthy property read (own key or inherited prototype member),
hyphen-normalized key match, substring match, keyword match, fallback
(moodMapping.js lines 695-733).  Stages 2-4 iterate `Object.keys` /
`Object.entries`, which list own keys only. -/
def resolveMood (nm : List Char) : MoodLookup :=
  match moodMappingsRead nm with
  | some v => v
  | none =>
    match moodMappings.find? (hyphenKeyMatch nm) with
    | some kv => MoodLookup.profile kv.2
    | none =>
      match moodMappings.find? (substringKeyMatch nm) with
      | some kv => MoodLookup.profile kv.2
      | none =>
        match moodMappings.find? (keywordEntryMatch nm) with
        | some kv => MoodLookup.profile kv.2
        | none => MoodLookup.profile (moodFallback nm)

/-- `getMoodMapping` (moodMapping.js lines 691-734): normalize, then resolve. -/
def getMoodMapping (mood : String) : MoodLookup :=
  resolveMood (normalizeMood mood.toList)

/-- The normalized input is not an own key but names an inherited
`Object.prototype` member, so the direct-lookup stage returns that member
instead of a profile.  After lowercasing, exactly the inputs normalizing to
`constructor` or `__proto__` satisfy this. -/
def protoCollision (nm : List Char) : Bool :=
  (moodMappings.find? (directKeyMatch nm)).isNone &&
  (objectPrototypeKeys.find? (fun k => k.toList == nm)).isSome

/-- All four lookup stages of `resolveMood` fail for this normalized input,
so the function reaches its fallback branch. -/
def noRegistryMatchCore (nm : List Char) : Bool :=
  (moodMappingsRead nm).isNone &&
  (moodMappings.find? (hyphenKeyMatch nm)).isNone &&
  (moodMappings.find? (substringKeyMatch nm)).isNone &&
  (moodMappings.find? (keywordEntryMatch nm)).isNone

/-- All four lookup stages of `getMoodMapping` fail for this input. -/
def noRegistryMatch (mood : String) : Bool :=
  noRegistryMatchCore (normalizeMood mood.toList)

/-! ### Place candidates -/

/-- The `opening_hours` sub-object of a raw place record; `open_now` may itself
be absent. -/
structure OpeningHours where
  open_now : Option Bool
deriving DecidableEq

/-- One raw place record as consumed by the engine.  Absent JS fields are
`none`; `types` defaults to `[]` exactly as `place.types || []` does. -/
structure Place where
  place_id : Nat
  name : String := ""
  vicinity : String := ""
  types : List String := []
  rating : Option ℚ := none
  user_ratings_total : Option Nat := none
  price_level : Option Int := none
  opening_hours : Option OpeningHours := none
  distance : Option ℚ := none
deriving DecidableEq

/-- JS `place.opening_hours?.open_now` as a truthiness test. -/
def openNowTruthy (p : Place) : Bool :=
  match p.opening_hours with
  | some oh => oh.open_now == some true
  | none => false

/-! ### Relevance scorer (`calculateRelevanceScore`, moodMapping.js lines 788-851) -/

/-- `Math.round` on rationals: round half toward positive infinity, which is
Mathlib's `round`. -/
def jsRound (q : ℚ) : ℤ := round q

/-- `calculateRelevanceScore(place, moodMapping)`: base 40; category-match,
price, rating, popularity, open-now, and distance adjustments; then
`Math.max(0, Math.min(Math.round(score), 100))`. -/
def calculateRelevanceScore (place : Place) (mm : MoodMapping) : ℤ :=
  let placeTypes := place.types
  let matchingTypes := placeTypes.filter fun t => mm.types.contains t
  let typeBonus : ℚ :=
    if matchingTypes.length > 0 then
      (match mm.types with
       | [] => 0
       | primary :: _ => if placeTypes.contains primary then 20 else 0) +
      matchingTypes.length * 10
    else 0
  let priceBonus : ℚ :=
    match place.price_level, mm.preferredPrice with
    | some pl, some pref => if pref.contains pl then 12 else -5
    | _, _ => 0
  let ratingBonus : ℚ :=
    match place.rating with
    | some r =>
      if r ≠ 0 then
        if mm.prioritizeRating then
          if r ≥ 4.5 then 20 else if r ≥ 4 then 15 else if r ≥ 3.5 then 10 else 5
        else r / 5 * 10
      else 0
    | none => 0
  let popularityBonus : ℚ :=
    match place.user_ratings_total with
    | some n =>
      if n ≠ 0 then
        if n ≥ 500 then 12 else if n ≥ 100 then 8 else if n ≥ 50 then 5 else 2
      else 0
    | none => 0
  let openBonus : ℚ := if openNowTruthy place then 8 else 0
  let distanceAdjust : ℚ :=
    match place.distance with
    | some d => if d ≠ 0 then (if d > 3000 then -5 else if d < 500 then 5 else 0) else 0
    | none => 0
  max 0 (min (jsRound (40 + typeBonus + priceBonus + ratingBonus + popularityBonus +
    openBonus + distanceAdjust)) 100)

/-! ### Filter pipeline (`filterPlaces`, filterSort.js lines 388-446) -/

/-- The `priceLevel` filter argument: JS `null`, a single numeric ceiling, or
an array of admitted tiers. -/
inductive PriceFilter where
  | null
  | upTo (n : Int)
  | levels (l : List Int)
deriving DecidableEq

/-- The destructured `filters` argument of `filterPlaces`, with the source's
defaults (`maxDistance = Infinity` is modelled as `none`). -/
structure FilterCriteria where
  minRating : ℚ := 0
  maxDistance : Option ℚ := none
  openNow : Bool := false
  priceLevel : PriceFilter := PriceFilter.null
  typesFilter : Option (List String) := none
  searchQuery : String := ""
deriving DecidableEq

/-- Rating filter: `if (place.rating && place.rating < minRating) return false`.
A present rating of `0` is falsy in JS and therefore never excluded. -/
def ratingFilterOk (f : FilterCriteria) (p : Place) : Bool :=
  match p.rating with
  | some r => if r ≠ 0 ∧ r < f.minRating then false else true
  | none => true

/-- Distance filter: `if (place.distance && place.distance > maxDistance)`. -/
def distanceFilterOk (f : FilterCriteria) (p : Place) : Bool :=
  match p.distance, f.maxDistance with
  | some d, some m => if d ≠ 0 ∧ d > m then false else true
  | _, _ => true

/-- Open-now filter: `if (openNow && place.opening_hours &&
!place.opening_hours.open_now)`. -/
def openFilterOk (f : FilterCriteria) (p : Place) : Bool :=
  match p.opening_hours with
  | some oh => if f.openNow ∧ oh.open_now ≠ some true then false else true
  | none => true

/-- Price filter: array membership, or numeric ceiling
(`place.price_level > priceLevel` excludes). -/
def priceFilterOk (f : FilterCriteria) (p : Place) : Bool :=
  match f.priceLevel, p.price_level with
  | PriceFilter.null, _ => true
  | _, none => true
  | PriceFilter.levels l, some pl => l.contains pl
  | PriceFilter.upTo n, some pl => if pl > n then false else true

/-- Type filter: `types.some(type => placeTypes.includes(type))`. -/
def typeFilterOk (f : FilterCriteria) (p : Place) : Bool :=
  match f.typesFilter with
  | some ts =>
    if ts.length > 0 then ts.any fun t => p.types.contains t else true
  | none => true

/-- Free-text filter: lowercase query must occur in the lowercase name or
vicinity; an empty query is falsy and applies no filter. -/
def queryFilterOk (f : FilterCriteria) (p : Place) : Bool :=
  match f.searchQuery.toList with
  | [] => true
  | q =>
    includesB (jsToLower p.name.toList) (jsToLower q) ||
    includesB (jsToLower p.vicinity.toList) (jsToLower q)

/-- Conjunction of the sequential early-return checks of `filterPlaces`. -/
def passesFilters (f : FilterCriteria) (p : Place) : Bool :=
  ratingFilterOk f p && distanceFilterOk f p && openFilterOk f p &&
  priceFilterOk f p && typeFilterOk f p && queryFilterOk f p

/-- `filterPlaces(places, filters)` (filterSort.js lines 388-446). -/
def filterPlaces (places : List Place) (f : FilterCriteria) : List Place :=
  places.filter (passesFilters f)

/-! ### Sort pipeline (`sortPlaces` / `calculatePlaceScore`,
filterSort.js lines 455-532) -/

/-- `SORT_OPTIONS` from constants.js. -/
inductive SortOption where
  | nearest
  | highestRated
  | bestMatch
  | priceLow
  | priceHigh
deriving DecidableEq

/-- `calculatePlaceScore(place, moodMapping)` (filterSort.js lines 501-532):
the BestMatch composite.  Each JS truthiness guard skips a present-but-zero
field. -/
def calculatePlaceScore (place : Place) (mm : Option MoodMapping) : ℚ :=
  let moodComponent : ℚ :=
    match mm with
    | some m => (calculateRelevanceScore place m : ℚ) * (3 / 10)
    | none => 0
  let ratingComponent : ℚ :=
    match place.rating with
    | some r => if r ≠ 0 then r / 5 * 25 else 0
    | none => 0
  let popularityComponent : ℚ :=
    match place.user_ratings_total with
    | some n => if n ≠ 0 then min ((n : ℚ) / 500) 1 * 15 else 0
    | none => 0
  let distanceComponent : ℚ :=
    match place.distance with
    | some d => if d ≠ 0 then max 0 (20 - d / 500) else 0
    | none => 0
  let openComponent : ℚ := if openNowTruthy place then 10 else 0
  moodComponent + ratingComponent + popularityComponent + distanceComponent + openComponent

/-- The stable-sort ordering induced by each JS comparator: `le a b` holds when
the comparator returns a non-positive number on `(a, b)`. -/
def sortLe (sortBy : SortOption) (mm : Option MoodMapping) : Place → Place → Bool
  | a, b =>
    match sortBy with
    | SortOption.nearest => a.distance.getD 0 ≤ b.distance.getD 0
    | SortOption.highestRated =>
      decide (b.rating.getD 0 < a.rating.getD 0) ||
      (b.rating.getD 0 == a.rating.getD 0 &&
       decide (b.user_ratings_total.getD 0 ≤ a.user_ratings_total.getD 0))
    | SortOption.bestMatch => calculatePlaceScore b mm ≤ calculatePlaceScore a mm
    | SortOption.priceLow => a.price_level.getD 5 ≤ b.price_level.getD 5
    | SortOption.priceHigh => b.price_level.getD (-1) ≤ a.price_level.getD (-1)

/-- `sortPlaces(places, sortBy, moodMapping)`: ECMAScript `Array.prototype.sort`
is required to be stable, so with these consistent comparators it coincides
with a stable merge sort by `sortLe`. -/
def sortPlaces (places : List Place) (sortBy : SortOption) (mm : Option MoodMapping) :
    List Place :=
  places.mergeSort (sortLe sortBy mm)

/-- `filterAndSortPlaces(places, filters, sortBy, moodMapping)`
(filterSort.js lines 542-545). -/
def filterAndSortPlaces (places : List Place) (f : FilterCriteria) (sortBy : SortOption)
    (mm : Option MoodMapping) : List Place :=
  sortPlaces (filterPlaces places f) sortBy mm

/-! ### Result aggregation (`searchMultipleTypes`, placesApi.js lines 174-206) -/

/-- The `.catch(err => ... return [])` wrapper applied to every sub-query
promise: a failed sub-query contributes an empty result list. -/
def recoverSubQuery : Except String (List Place) → List Place
  | Except.ok l => l
  | Except.error _ => []

/-- The flattened outcome of `await Promise.all([...typePromises,
...keywordPromises])` followed by `.flat()`, with each failure already
recovered to `[]`. -/
def subQueryOutcomes (typeResults keywordResults : List (Except String (List Place))) :
    List Place :=
  ((typeResults.map recoverSubQuery) ++ (keywordResults.map recoverSubQuery)).flatten

/-- The `allResults` map fill: `if (!allResults.has(place.place_id))
allResults.set(place.place_id, place)`, read back in insertion order.
`seen` is the set of keys already present. -/
def dedupByPlaceId (seen : List Nat) : List Place → List Place
  | [] => []
  | p :: rest =>
    if p.place_id ∈ seen then dedupByPlaceId seen rest
    else p :: dedupByPlaceId (p.place_id :: seen) rest

/-- `combineAndDedup` is the merge step of `searchMultipleTypes`. -/
def combineAndDedup (raw : List Place) : List Place := dedupByPlaceId [] raw

/-- `searchMultipleTypes(service, options)`: every sub-query outcome is given
with its recovery already described by `Except`; the function itself always
resolves (never rejects) with the merged, deduplicated list. -/
def searchMultipleTypes (typeResults keywordResults : List (Except String (List Place))) :
    Except String (List Place) :=
  Except.ok (combineAndDedup (subQueryOutcomes typeResults keywordResults))

/-! ### Details cache (`getPlaceDetails` and `detailsCache`,
placesApi.js lines 9-11 and 123-166) -/

/-- `CACHE_DURATION = 5 * 60 * 1000` milliseconds. -/
def CACHE_DURATION : ℤ := 5 * 60 * 1000

/-- One `detailsCache` entry: `{ data, timestamp }`; the opaque details record
is modelled as a natural number. -/
structure CacheEntry where
  data : Nat
  timestamp : ℤ
deriving DecidableEq

/-- `detailsCache.set(placeId, entry)`: JS `Map.set` overwrites in place on an
existing key and appends otherwise. -/
def cacheSet (cache : List (Nat × CacheEntry)) (pid : Nat) (e : CacheEntry) :
    List (Nat × CacheEntry) :=
  if cache.any (fun kv => kv.1 == pid) then
    cache.map fun kv => if kv.1 == pid then (pid, e) else kv
  else cache ++ [(pid, e)]

/-- `getPlaceDetails(service, placeId)` at instant `now`, with the provider
response the call would receive modelled by `provider`.  Returns the resolved
value, the cache afterwards, and whether a provider request was issued. -/
def getPlaceDetails (cache : List (Nat × CacheEntry)) (now : ℤ) (pid : Nat)
    (provider : Except String Nat) :
    Except String Nat × List (Nat × CacheEntry) × Bool :=
  match cache.find? (fun kv => kv.1 == pid) with
  | some kv =>
    if now - kv.2.timestamp < CACHE_DURATION then
      (Except.ok kv.2.data, cache, false)
    else
      match provider with
      | Except.ok d => (Except.ok d, cacheSet cache pid ⟨d, now⟩, true)
      | Except.error e => (Except.error e, cache, true)
  | none =>
    match provider with
    | Except.ok d => (Except.ok d, cacheSet cache pid ⟨d, now⟩, true)
    | Except.error e => (Except.error e, cache, true)

/-! ### Search-session cancellation (`searchByMood`, usePlaces.js lines 60-126)

Each call allocates a fresh token object `{ abort: false }`, stores it in
`searchAbortRef`, sets `abort = true` on the previously stored token, and
captures its own token by closure (`const currentSearch = ...`).  When the
provider response arrives, the closure publishes `places`/`filteredPlaces`
only if `currentSearch.abort` is still false.  Sessions are identified below
by the identity of their token (a unique `Nat` per `searchByMood` call). -/

/-- An atomic event of the cooperative event loop: a search starts, or a
pending search's provider response arrives carrying its result list. -/
inductive SearchEvent where
  | start (sid : Nat)
  | complete (sid : Nat) (result : List Place)
deriving DecidableEq

/-- The session-relevant state of the `usePlaces` hook: which token
`searchAbortRef` currently holds, which tokens exist, which have `abort =
true`, and the published result list together with the session that set it. -/
structure SessionState where
  active : Option Nat
  started : List Nat
  aborted : List Nat
  published : Option (Nat × List Place)
deriving DecidableEq

/-- Hook state before any search. -/
def initialSession : SessionState :=
  { active := none, started := [], aborted := [], published := none }

/-- One event: `start` marks the previous token aborted and installs the new
one (usePlaces.js lines 66-71); `complete` publishes unless the session's own
token was aborted (lines 97-113). -/
def sessionStep (s : SessionState) (e : SearchEvent) : SessionState :=
  match e with
  | SearchEvent.start sid =>
    { s with
      active := some sid,
      started := sid :: s.started,
      aborted :=
        match s.active with
        | some prev => prev :: s.aborted
        | none => s.aborted }
  | SearchEvent.complete sid result =>
    if sid ∈ s.aborted then s
    else { s with published := some (sid, result) }

/-- Run a whole interleaving of searches and response arrivals in order. -/
def runSearches (s : SessionState) : List SearchEvent → SessionState
  | [] => s
  | e :: rest => runSearches (sessionStep s e) rest

/-- Every started session is either the one whose token `searchAbortRef`
currently holds, or a session whose token already has `abort = true`. -/
def SessionInv (s : SessionState) : Prop :=
  ∀ sid ∈ s.started, sid ∉ s.aborted → s.active = some sid

/-! ### Specification-side definition for the BestMatch refinement check -/

/-- The BestMatch composite exactly as the specification words it: each term
applies whenever the corresponding field is *present* — in particular a
present distance of `0` contributes `max 0 (20 - 0/500) = 20`.  This is the
spec's formula, to be compared against the source's `calculatePlaceScore`. -/
def specBestMatchScore (p : Place) (mm : Option MoodMapping) : ℚ :=
  (match mm with
   | some m => (calculateRelevanceScore p m : ℚ) * (3 / 10)
   | none => 0) +
  (match p.rating with
   | some r => 25 * (r / 5)
   | none => 0) +
  (match p.user_ratings_total with
   | some n => min ((n : ℚ) / 500) 1 * 15
   | none => 0) +
  (match p.distance with
   | some d => max 0 (20 - d / 500)
   | none => 0) +
  (if openNowTruthy p then 10 else 0)

/-! ### Concrete candidates used by witnesses and counterexamples -/

/-- A candidate with every optional field absent. -/
def bareCandidate : Place := { place_id := 0 }

/-- A candidate carrying only a rating. -/
def ratedPlace (i : Nat) (r : ℚ) : Place := { place_id := i, rating := some r }

/-- A candidate carrying no rating. -/
def unratedPlace (i : Nat) : Place := { place_id := i }

/-- A candidate whose provider rating is present but equal to `0`. -/
def zeroRatedPlace : Place := { place_id := 0, rating := some 0 }

/-- A candidate at distance `0` from the origin and nothing else known. -/
def zeroDistancePlace : Place := { place_id := 0, distance := some 0 }

/-- A candidate 5000 m away and nothing else known. -/
def farPlace : Place := { place_id := 1, distance := some 5000 }

/-- A candidate whose only category is `cafe`. -/
def cafeOnlyPlace : Place := { place_id := 0, types := ["cafe"] }

/-- A candidate categorized as both `bakery` and `cafe`. -/
def bakeryCafePlace : Place := { place_id := 0, types := ["bakery", "cafe"] }

/-- A profile whose single category is `cafe` (shaped like the registry's
`coffee` entry). -/
def cafeMood : MoodMapping :=
  { types := ["cafe"], keywords := ["coffee"], description := "Coffee shops",
    preferredPrice := some [1, 2], prioritizeRating := true }

/-- A profile whose categories are `bakery` then `cafe` (shaped like the
registry's `dessert` entry). -/
def bakeryCafeMood : MoodMapping :=
  { types := ["bakery", "cafe"], keywords := ["dessert"], description := "Sweet treats",
    preferredPrice := some [1, 2], prioritizeRating := true }

/-- Filter criteria demanding a minimum rating of 4 and nothing else. -/
def c5Criteria : FilterCriteria := { minRating := 4 }

/-- Cache scenario call 1: a fetch for place 7 at `t = 0` that succeeds. -/
def c10FirstCall : Except String Nat × List (Nat × CacheEntry) × Bool :=
  getPlaceDetails [] 0 7 (Except.ok 42)

/-- Cache scenario call 2: the same place one millisecond before the entry
expires; it succeeds from the cache. -/
def c10SecondCall : Except String Nat × List (Nat × CacheEntry) × Bool :=
  getPlaceDetails c10FirstCall.2.1 299999 7 (Except.ok 42)

/-- Cache scenario call 3: two milliseconds after call 2's success, once the
stored timestamp has expired. -/
def c10ThirdCall : Except String Nat × List (Nat × CacheEntry) × Bool :=
  getPlaceDetails c10SecondCall.2.1 300001 7 (Except.ok 43)

/-! ## Theorems -/

/-- Clamping any integer into `[0, 100]` stays in `[0, 100]`. -/
theorem clampBounds (z : ℤ) : 0 ≤ max 0 (min z 100) ∧ max 0 (min z 100) ≤ 100 := by
  omega

/-- `Math.round` of an integer-valued rational is that integer. -/
theorem jsRound_intCast (z : ℤ) : jsRound (z : ℚ) = z := by
  simp [jsRound]

/-- Claim C1: `calculateRelevanceScore` always returns an integer in
`[0, 100]`; a candidate with every optional field absent (no rating, rating
count, price tier, opening hours, or distance) and no category overlap with
the profile scores exactly the base 40. -/
theorem relevanceScore_bounds_and_base (p : Place) (mm : MoodMapping) :
    (0 ≤ calculateRelevanceScore p mm ∧ calculateRelevanceScore p mm ≤ 100) ∧
    (p.rating = none → p.user_ratings_total = none → p.price_level = none →
     p.opening_hours = none → p.distance = none →
     p.types.filter (fun t => mm.types.contains t) = [] →
     calculateRelevanceScore p mm = 40) := by
  constructor
  · exact clampBounds _
  · intro hr hu hp ho hd hf
    simp only [calculateRelevanceScore, openNowTruthy, jsRound, hr, hu, hp, ho, hd, hf]
    norm_num [round_eq]

/-- Witness for C1 at a bare candidate against the `cafe` profile. -/
theorem relevanceScore_bounds_and_base_witness :
    0 ≤ calculateRelevanceScore bareCandidate cafeMood ∧
    calculateRelevanceScore bareCandidate cafeMood ≤ 100 ∧
    calculateRelevanceScore bareCandidate cafeMood = 40 :=
  ⟨(relevanceScore_bounds_and_base bareCandidate cafeMood).1.1,
   (relevanceScore_bounds_and_base bareCandidate cafeMood).1.2,
   (relevanceScore_bounds_and_base bareCandidate cafeMood).2 rfl rfl rfl rfl rfl rfl⟩

/-- Claim C2 counterexample: the source adds `matchingTypes.length * 10` for
every matching category, the primary included.  A candidate matching the
primary category alone therefore gains +30 (score 70), not the claimed +20
(score 60); matching the primary plus one secondary gains +40 (score 80),
not the claimed +30 (score 70). -/
theorem categoryBonus_counterexample :
    calculateRelevanceScore cafeOnlyPlace cafeMood = 70 ∧
    calculateRelevanceScore cafeOnlyPlace cafeMood ≠ 40 + 20 ∧
    calculateRelevanceScore bakeryCafePlace bakeryCafeMood = 80 ∧
    calculateRelevanceScore bakeryCafePlace bakeryCafeMood ≠ 40 + 30 := by
  have h1 : calculateRelevanceScore cafeOnlyPlace cafeMood = 70 := by
    norm_num [calculateRelevanceScore, openNowTruthy, jsRound, round_eq, cafeOnlyPlace,
      cafeMood]
  have h2 : calculateRelevanceScore bakeryCafePlace bakeryCafeMood = 80 := by
    norm_num [calculateRelevanceScore, openNowTruthy, jsRound, round_eq, bakeryCafePlace,
      bakeryCafeMood]
  exact ⟨h1, by omega, h2, by omega⟩

/-- Claim C2 (amended): when at least one category matches, the category
adjustment is +20 if the candidate's categories contain the profile's primary
category, plus +10 for every matching category including the primary; so
primary alone gains +30 and primary plus one secondary gains +40. -/
theorem categoryBonus_amended (p : Place) (mm : MoodMapping) (primary : String)
    (rest : List String) (hmm : mm.types = primary :: rest)
    (hr : p.rating = none) (hu : p.user_ratings_total = none)
    (hp : p.price_level = none) (ho : p.opening_hours = none)
    (hd : p.distance = none)
    (hmatch : p.types.filter (fun t => mm.types.contains t) ≠ []) :
    calculateRelevanceScore p mm =
      max 0 (min (40 + (if p.types.contains primary then 20 else 0) +
        10 * ((p.types.filter (fun t => mm.types.contains t)).length : ℤ)) 100) := by
  simp only [calculateRelevanceScore, openNowTruthy, hr, hu, hp, ho, hd, hmm,
    Bool.false_eq_true, if_false, add_zero]
  rw [hmm] at hmatch
  have hlen : 0 < (List.filter (fun t => (primary :: rest).contains t) p.types).length :=
    List.length_pos.mpr hmatch
  simp only [hlen, if_pos, gt_iff_lt]
  by_cases hc : p.types.contains primary = true
  · simp only [hc, if_pos]
    have hcast : (40 + (20 + ((List.filter (fun t => (primary :: rest).contains t)
        p.types).length : ℚ) * 10) : ℚ) =
        (((40 + 20 + 10 * (List.filter (fun t => (primary :: rest).contains t)
          p.types).length : ℤ)) : ℚ) := by
      push_cast
      ring
    rw [hcast, jsRound_intCast]
  · have hc' : p.types.contains primary = false := by
      simpa using hc
    simp only [hc', Bool.false_eq_true, if_false, zero_add]
    have hcast : ((40 : ℚ) + ((List.filter (fun t => (primary :: rest).contains t)
        p.types).length : ℚ) * 10) =
        (((40 + 0 + 10 * (List.filter (fun t => (primary :: rest).contains t)
          p.types).length : ℤ)) : ℚ) := by
      push_cast
      ring
    rw [hcast, jsRound_intCast]

/-- Witness for the amended C2 at the cafe-only candidate. -/
theorem categoryBonus_amended_witness :
    calculateRelevanceScore cafeOnlyPlace cafeMood =
      max 0 (min (40 + (if cafeOnlyPlace.types.contains "cafe" then 20 else 0) +
        10 * ((cafeOnlyPlace.types.filter
          (fun t => cafeMood.types.contains t)).length : ℤ)) 100) :=
  categoryBonus_amended cafeOnlyPlace cafeMood "cafe" [] rfl rfl rfl rfl rfl rfl (by decide)

/-- A batch of sub-queries that all failed recovers to only empty lists. -/
theorem recovered_all_errors (l : List (Except String (List Place)))
    (h : ∀ q ∈ l, ∃ e, q = Except.error e) :
    (l.map recoverSubQuery).flatten = ([] : List Place) := by
  induction l with
  | nil => rfl
  | cons q rest ih =>
    obtain ⟨e, he⟩ := h q (List.mem_cons_self q rest)
    simp only [List.map_cons, List.flatten_cons, he, recoverSubQuery, List.nil_append]
    exact ih fun x hx => h x (List.mem_cons_of_mem q hx)

/-- Claim C3 counterexample: when every category and keyword sub-query fails
(total provider outage), `searchMultipleTypes` still resolves with the empty
list; no error is surfaced to the caller. -/
theorem providerOutage_counterexample :
    searchMultipleTypes [Except.error "down", Except.error "down"] [Except.error "down"] =
      Except.ok [] ∧
    searchMultipleTypes [Except.error "down", Except.error "down"] [Except.error "down"] ≠
      Except.error "down" := by
  exact ⟨rfl, fun h => Except.noConfusion h⟩

/-- Claim C3 (amended): every sub-query failure, a total outage included, is
swallowed: `searchMultipleTypes` always resolves, and when all sub-queries
fail it resolves with the empty list, indistinguishable from no results. -/
theorem providerOutage_amended
    (typeResults keywordResults : List (Except String (List Place))) :
    (∃ out, searchMultipleTypes typeResults keywordResults = Except.ok out) ∧
    ((∀ q ∈ typeResults, ∃ e, q = Except.error e) →
     (∀ q ∈ keywordResults, ∃ e, q = Except.error e) →
     searchMultipleTypes typeResults keywordResults = Except.ok []) := by
  constructor
  · exact ⟨_, rfl⟩
  · intro h1 h2
    unfold searchMultipleTypes combineAndDedup subQueryOutcomes
    rw [List.flatten_append, recovered_all_errors typeResults h1,
      recovered_all_errors keywordResults h2]
    rfl

/-- Witness for the amended C3 with one failing query of each kind. -/
theorem providerOutage_amended_witness :
    searchMultipleTypes [Except.error "503"] [Except.error "503"] = Except.ok [] :=
  (providerOutage_amended [Except.error "503"] [Except.error "503"]).2
    (fun q hq => ⟨"503", by simpa using hq⟩)
    (fun q hq => ⟨"503", by simpa using hq⟩)

/-- Ids surviving deduplication were not in the seen set. -/
theorem dedup_id_not_seen : ∀ (l : List Place) (seen : List Nat) (i : Nat),
    i ∈ (dedupByPlaceId seen l).map Place.place_id → i ∉ seen := by
  intro l
  induction l with
  | nil => intro seen i h; simp [dedupByPlaceId] at h
  | cons p rest ih =>
    intro seen i h
    by_cases hp : p.place_id ∈ seen
    · rw [dedupByPlaceId, if_pos hp] at h
      exact ih seen i h
    · rw [dedupByPlaceId, if_neg hp] at h
      simp only [List.map_cons, List.mem_cons] at h
      rcases h with h | h
      · subst h; exact hp
      · intro hmem
        exact ih (p.place_id :: seen) i h (List.mem_cons_of_mem _ hmem)

/-- Deduplication yields pairwise-distinct ids. -/
theorem dedup_ids_nodup : ∀ (l : List Place) (seen : List Nat),
    ((dedupByPlaceId seen l).map Place.place_id).Nodup := by
  intro l
  induction l with
  | nil => intro seen; simp [dedupByPlaceId]
  | cons p rest ih =>
    intro seen
    by_cases hp : p.place_id ∈ seen
    · rw [dedupByPlaceId, if_pos hp]; exact ih seen
    · rw [dedupByPlaceId, if_neg hp]
      simp only [List.map_cons, List.nodup_cons]
      constructor
      · intro hmem
        exact dedup_id_not_seen rest (p.place_id :: seen) p.place_id hmem
          (List.mem_cons_self _ _)
      · exact ih (p.place_id :: seen)

/-- Deduplication keeps, for each unseen id, exactly the first record of the
input carrying that id. -/
theorem dedup_find?_eq : ∀ (l : List Place) (seen : List Nat) (pid : Nat),
    (pid ∈ seen → (dedupByPlaceId seen l).find? (fun p => p.place_id == pid) = none) ∧
    (pid ∉ seen → (dedupByPlaceId seen l).find? (fun p => p.place_id == pid) =
      l.find? (fun p => p.place_id == pid)) := by
  intro l
  induction l with
  | nil => intro seen pid; exact ⟨fun _ => rfl, fun _ => rfl⟩
  | cons p rest ih =>
    intro seen pid
    constructor
    · intro hin
      by_cases hp : p.place_id ∈ seen
      · rw [dedupByPlaceId, if_pos hp]
        exact (ih seen pid).1 hin
      · rw [dedupByPlaceId, if_neg hp]
        have hne : (p.place_id == pid) = false := by
          simp only [beq_eq_false_iff_ne, ne_eq]
          intro heq
          exact hp (heq ▸ hin)
        rw [List.find?_cons_of_neg _ (by simp [hne])]
        exact (ih (p.place_id :: seen) pid).1 (List.mem_cons_of_mem _ hin)
    · intro hout
      by_cases hp : p.place_id ∈ seen
      · rw [dedupByPlaceId, if_pos hp]
        have hne : (p.place_id == pid) = false := by
          simp only [beq_eq_false_iff_ne, ne_eq]
          intro heq
          exact hout (heq ▸ hp)
        rw [List.find?_cons_of_neg _ (by simp [hne])]
        exact (ih seen pid).2 hout
      · rw [dedupByPlaceId, if_neg hp]
        by_cases heq : p.place_id = pid
        · rw [List.find?_cons_of_pos _ (by simpa using heq),
            List.find?_cons_of_pos _ (by simpa using heq)]
        · rw [List.find?_cons_of_neg _ (by simpa using heq),
            List.find?_cons_of_neg _ (by simpa using heq)]
          have hnotin : pid ∉ p.place_id :: seen := by
            intro hmem
            rcases List.mem_cons.mp hmem with h | h
            · exact heq h.symm
            · exact hout h
          exact (ih (p.place_id :: seen) pid).2 hnotin

/-- Claim C4: the merged output of `searchMultipleTypes` contains each
`place_id` at most once, and for every id the retained record is the
first-seen occurrence in the flattened sub-query results. -/
theorem dedup_first_seen (typeResults keywordResults : List (Except String (List Place))) :
    searchMultipleTypes typeResults keywordResults =
      Except.ok (combineAndDedup (subQueryOutcomes typeResults keywordResults)) ∧
    ((combineAndDedup (subQueryOutcomes typeResults keywordResults)).map
      Place.place_id).Nodup ∧
    ∀ pid, (combineAndDedup (subQueryOutcomes typeResults keywordResults)).find?
        (fun p => p.place_id == pid) =
      (subQueryOutcomes typeResults keywordResults).find? (fun p => p.place_id == pid) := by
  refine ⟨rfl, dedup_ids_nodup _ _, fun pid => ?_⟩
  exact (dedup_find?_eq _ [] pid).2 (List.not_mem_nil pid)

/-- Claim C5 counterexample: a present rating of `0` is falsy in JS, so the
rating filter keeps a candidate rated 0 even though the claim says a present
rating strictly below `minRating = 4` is excluded. -/
theorem ratingFilter_counterexample :
    filterPlaces [zeroRatedPlace] c5Criteria = [zeroRatedPlace] ∧
    zeroRatedPlace.rating = some 0 ∧ (0 : ℚ) < c5Criteria.minRating := by
  refine ⟨by decide, rfl, by norm_num [c5Criteria]⟩

/-- Claim C5 (amended): the rating filter excludes a candidate exactly when
its rating is present, nonzero, and strictly below `minRating`; a missing
rating (or a rating of 0, which JS treats as missing) is never excluded; the
claim's example with ratings 3, 4.5 and undefined against `minRating = 4`
keeps exactly the 4.5-rated and unrated candidates. -/
theorem ratingFilter_amended :
    (∀ (places : List Place) (f : FilterCriteria) (p : Place), p ∈ filterPlaces places f →
      ∀ r, p.rating = some r → r ≠ 0 → f.minRating ≤ r) ∧
    (∀ (f : FilterCriteria) (p : Place), p.rating = none ∨ p.rating = some 0 →
      ratingFilterOk f p = true) ∧
    filterPlaces [ratedPlace 1 3, ratedPlace 2 (9 / 2), unratedPlace 3] c5Criteria =
      [ratedPlace 2 (9 / 2), unratedPlace 3] := by
  refine ⟨?_, ?_, ?_⟩
  · intro places f p hp r hr hne
    have hpass : passesFilters f p = true := List.of_mem_filter hp
    simp only [passesFilters, Bool.and_eq_true] at hpass
    have hro := hpass.1.1.1.1.1
    by_contra hlt
    push_neg at hlt
    simp [ratingFilterOk, hr, hne, hlt] at hro
  · intro f p h
    rcases h with h | h <;> simp [ratingFilterOk, h]
  · norm_num [filterPlaces, passesFilters, ratingFilterOk, distanceFilterOk, openFilterOk,
      priceFilterOk, typeFilterOk, queryFilterOk, ratedPlace, unratedPlace, c5Criteria,
      List.filter]

/-- Witness for the amended C5: a candidate rated 5 survives `minRating = 4`,
and an unrated candidate always passes the rating filter. -/
theorem ratingFilter_amended_witness :
    (4 : ℚ) ≤ 5 ∧ ratingFilterOk c5Criteria (unratedPlace 0) = true :=
  ⟨ratingFilter_amended.1 [ratedPlace 7 5] c5Criteria (ratedPlace 7 5) (by decide) 5 rfl
    (by decide),
   ratingFilter_amended.2.1 c5Criteria (unratedPlace 0) (Or.inl rfl)⟩

/-- Each JS sort comparator induces a transitive ordering. -/
theorem sortLe_trans (sb : SortOption) (mm : Option MoodMapping) (a b c : Place)
    (h1 : sortLe sb mm a b = true) (h2 : sortLe sb mm b c = true) :
    sortLe sb mm a c = true := by
  cases sb <;>
    simp only [sortLe, decide_eq_true_eq, Bool.or_eq_true, Bool.and_eq_true,
      beq_iff_eq] at h1 h2 ⊢
  · exact le_trans h1 h2
  · rcases h1 with h1 | ⟨h1e, h1c⟩ <;> rcases h2 with h2 | ⟨h2e, h2c⟩
    · exact Or.inl (lt_trans h2 h1)
    · exact Or.inl (h2e ▸ h1)
    · exact Or.inl (h1e ▸ h2)
    · exact Or.inr ⟨h2e.trans h1e, le_trans h2c h1c⟩
  · exact le_trans h2 h1
  · exact le_trans h1 h2
  · exact le_trans h2 h1

/-- Each JS sort comparator induces a total ordering. -/
theorem sortLe_total (sb : SortOption) (mm : Option MoodMapping) (a b : Place) :
    (sortLe sb mm a b || sortLe sb mm b a) = true := by
  cases sb <;>
    simp only [sortLe, decide_eq_true_eq, Bool.or_eq_true, Bool.and_eq_true, beq_iff_eq]
  · exact le_total _ _
  · rcases lt_trichotomy (b.rating.getD 0) (a.rating.getD 0) with h | h | h
    · exact Or.inl (Or.inl h)
    · rcases le_total (b.user_ratings_total.getD 0) (a.user_ratings_total.getD 0) with
        hc | hc
      · exact Or.inl (Or.inr ⟨h, hc⟩)
      · exact Or.inr (Or.inr ⟨h.symm, hc⟩)
    · exact Or.inr (Or.inl h)
  · exact le_total _ _
  · exact le_total _ _
  · exact le_total _ _

/-- Claim C7 counterexample: the source skips the distance component for a
present distance of `0` (JS truthiness), so a candidate at distance 0 scores
0 and sorts after a candidate 5000 m away, while the spec's formula gives the
distance-0 candidate the strictly larger composite 20. -/
theorem bestMatch_spec_counterexample :
    sortPlaces [zeroDistancePlace, farPlace] SortOption.bestMatch none =
      [farPlace, zeroDistancePlace] ∧
    specBestMatchScore farPlace none < specBestMatchScore zeroDistancePlace none := by
  have hA : calculatePlaceScore zeroDistancePlace none = 0 := by
    norm_num [calculatePlaceScore, openNowTruthy, zeroDistancePlace]
  have hB : calculatePlaceScore farPlace none = 10 := by
    norm_num [calculatePlaceScore, openNowTruthy, farPlace]
  have hle : sortLe SortOption.bestMatch none zeroDistancePlace farPlace = false := by
    simp [sortLe, hA, hB]
  constructor
  · simp [sortPlaces, List.mergeSort, hle]
  · have hsA : specBestMatchScore zeroDistancePlace none = 20 := by
      norm_num [specBestMatchScore, openNowTruthy, zeroDistancePlace]
    have hsB : specBestMatchScore farPlace none = 10 := by
      norm_num [specBestMatchScore, openNowTruthy, farPlace]
    rw [hsA, hsB]
    norm_num

/-- Claim C7 (amended): under BestMatch the output is a permutation of the
input ordered by descending `calculatePlaceScore`, whose components apply
only to present *and nonzero* rating, rating count and distance (plus the
mood term when a profile is supplied and +10 when open now). -/
theorem bestMatch_amended (places : List Place) (mm : Option MoodMapping) :
    (sortPlaces places SortOption.bestMatch mm).Perm places ∧
    (sortPlaces places SortOption.bestMatch mm).Pairwise
      (fun a b => calculatePlaceScore b mm ≤ calculatePlaceScore a mm) := by
  constructor
  · exact List.mergeSort_perm places _
  · have h := @List.sorted_mergeSort Place (sortLe SortOption.bestMatch mm)
      (sortLe_trans SortOption.bestMatch mm) (sortLe_total SortOption.bestMatch mm) places
    exact h.imp fun hab => by simpa [sortLe] using hab

/-- Claim C9: `filterAndSortPlaces` is idempotent — filtering passes every
already-kept candidate again, and a stable merge sort of an already-sorted
list is the identity. -/
theorem filterAndSort_idempotent (places : List Place) (f : FilterCriteria)
    (sb : SortOption) (mm : Option MoodMapping) :
    filterAndSortPlaces (filterAndSortPlaces places f sb mm) f sb mm =
      filterAndSortPlaces places f sb mm := by
  unfold filterAndSortPlaces sortPlaces filterPlaces
  have hfix : List.filter (passesFilters f)
      ((List.filter (passesFilters f) places).mergeSort (sortLe sb mm)) =
      (List.filter (passesFilters f) places).mergeSort (sortLe sb mm) := by
    apply List.filter_eq_self.mpr
    intro a ha
    exact List.of_mem_filter ((List.mergeSort_perm _ _).mem_iff.mp ha)
  rw [hfix]
  exact List.mergeSort_of_sorted
    (List.sorted_mergeSort (sortLe_trans sb mm) (sortLe_total sb mm) _)

/-- Every registry entry lists at least one place category. -/
theorem moodMappings_types_nonempty :
    ∀ kv ∈ moodMappings, 1 ≤ (Prod.snd kv).types.length := by
  decide

/-- Away from prototype collisions, resolution lands on a registry entry or
the fallback, all of which are profiles with at least one category. -/
theorem resolveMood_profile_nonempty (nm : List Char)
    (hp : protoCollision nm = false) :
    ∃ m, resolveMood nm = MoodLookup.profile m ∧ 1 ≤ m.types.length := by
  rcases (moodMappings.find? (directKeyMatch nm)).eq_none_or_eq_some with h1 | ⟨kv1, h1⟩
  · rcases (objectPrototypeKeys.find? (fun k => k.toList == nm)).eq_none_or_eq_some with
      hpr | ⟨k, hpr⟩
    · rcases (moodMappings.find? (hyphenKeyMatch nm)).eq_none_or_eq_some with h2 | ⟨kv2, h2⟩
      · rcases (moodMappings.find? (substringKeyMatch nm)).eq_none_or_eq_some with
          h3 | ⟨kv3, h3⟩
        · rcases (moodMappings.find? (keywordEntryMatch nm)).eq_none_or_eq_some with
            h4 | ⟨kv4, h4⟩
          · refine ⟨moodFallback nm, ?_, by simp [moodFallback]⟩
            simp only [resolveMood, moodMappingsRead, h1, hpr, h2, h3, h4]
          · refine ⟨kv4.2, ?_,
              moodMappings_types_nonempty kv4 (List.mem_of_find?_eq_some h4)⟩
            simp only [resolveMood, moodMappingsRead, h1, hpr, h2, h3, h4]
        · refine ⟨kv3.2, ?_,
            moodMappings_types_nonempty kv3 (List.mem_of_find?_eq_some h3)⟩
          simp only [resolveMood, moodMappingsRead, h1, hpr, h2, h3]
      · refine ⟨kv2.2, ?_,
          moodMappings_types_nonempty kv2 (List.mem_of_find?_eq_some h2)⟩
        simp only [resolveMood, moodMappingsRead, h1, hpr, h2]
    · exfalso
      have hk := List.find?_some hpr
      have hmem := List.mem_of_find?_eq_some hpr
      simp [protoCollision, h1, hpr] at hp
      exact hp k hmem (by simpa using hk)
  · refine ⟨kv1.2, ?_, moodMappings_types_nonempty kv1 (List.mem_of_find?_eq_some h1)⟩
    simp only [resolveMood, moodMappingsRead, h1]

/-- When no lookup stage matches, resolution returns the generic fallback. -/
theorem resolveMood_fallback (nm : List Char) (h : noRegistryMatchCore nm = true) :
    resolveMood nm = MoodLookup.profile (moodFallback nm) := by
  simp only [noRegistryMatchCore, Bool.and_eq_true, Option.isNone_iff_eq_none] at h
  simp only [resolveMood, h.1.1.1, h.1.1.2, h.1.2, h.2]

/-- Claim C8 counterexample: the direct-match stage is a JS property read
that consults the prototype chain: for the inputs "constructor" and
"__proto__" (the only inherited member names that survive lowercasing)
`getMoodMapping` returns the truthy member inherited from
`Object.prototype`, whose `types` field is `undefined` — not a profile with
at least one category. -/
theorem moodResolve_counterexample :
    getMoodMapping "constructor" = MoodLookup.inheritedProperty "constructor" ∧
    moodLookupTypes (getMoodMapping "constructor") = none ∧
    getMoodMapping "__proto__" = MoodLookup.inheritedProperty "__proto__" ∧
    moodLookupTypes (getMoodMapping "__proto__") = none := by
  decide

/-- Claim C8 (amended): `getMoodMapping` never throws; unless the normalized
input collides with an inherited `Object.prototype` member name — for which
the direct-lookup stage returns that truthy inherited member, an object with
no categories — it returns a profile whose categories list has length at
least 1, and when additionally no exact, partial, or keyword match exists it
returns the fallback profile with categories `[restaurant, cafe]`, keywords
equal to the single normalized input, preferred price tiers `[1, 2, 3]`, and
`prioritizeRating = true`. -/
theorem moodResolve_total_fallback (mood : String)
    (hp : protoCollision (normalizeMood mood.toList) = false) :
    (∃ m, getMoodMapping mood = MoodLookup.profile m ∧ 1 ≤ m.types.length) ∧
    (noRegistryMatch mood = true →
      getMoodMapping mood =
        MoodLookup.profile (moodFallback (normalizeMood mood.toList))) :=
  ⟨resolveMood_profile_nonempty (normalizeMood mood.toList) hp,
   fun h => resolveMood_fallback (normalizeMood mood.toList) h⟩

/-- Witness for the amended C8 at the collision-free no-match input "xq". -/
theorem moodResolve_total_fallback_witness :
    protoCollision (normalizeMood "xq".toList) = false ∧
    noRegistryMatch "xq" = true ∧
    getMoodMapping "xq" =
      MoodLookup.profile (moodFallback (normalizeMood "xq".toList)) :=
  ⟨by decide, by decide,
   (moodResolve_total_fallback "xq" (by decide)).2 (by decide)⟩

/-- Replacing the entry for an existing key leaves it findable with its new
payload. -/
theorem find?_map_replace (pid : Nat) (e : CacheEntry) :
    ∀ (cache : List (Nat × CacheEntry)), cache.any (fun kv => kv.1 == pid) = true →
      (cache.map fun kv => if kv.1 == pid then (pid, e) else kv).find?
        (fun kv => kv.1 == pid) = some (pid, e) := by
  intro cache
  induction cache with
  | nil => intro h; simp at h
  | cons kv rest ih =>
    intro h
    by_cases hk : (kv.1 == pid) = true
    · simp only [List.map_cons, hk, if_pos]
      exact List.find?_cons_of_pos _ (by simp)
    · have hk' : (kv.1 == pid) = false := by simpa using hk
      simp only [List.map_cons, hk', Bool.false_eq_true, if_false]
      rw [List.find?_cons_of_neg _ (by simp [hk'])]
      apply ih
      simpa [List.any_cons, hk'] using h

/-- `Map.set` leaves the stored entry findable under its key. -/
theorem find?_cacheSet (cache : List (Nat × CacheEntry)) (pid : Nat) (e : CacheEntry) :
    (cacheSet cache pid e).find? (fun kv => kv.1 == pid) = some (pid, e) := by
  unfold cacheSet
  by_cases h : cache.any (fun kv => kv.1 == pid) = true
  · rw [if_pos h]
    exact find?_map_replace pid e cache h
  · have h' : cache.any (fun kv => kv.1 == pid) = false := by
      cases hx : cache.any (fun kv => kv.1 == pid) with
      | false => rfl
      | true => exact absurd hx h
    simp only [h', Bool.false_eq_true, if_false]
    have hall : ∀ kv ∈ cache, ¬ (kv.1 == pid) = true := by
      rw [← List.any_eq_false]
      exact h'
    rw [List.find?_append, List.find?_eq_none.mpr hall]
    simp [List.find?]

/-- Claim C10 (amended): `getPlaceDetails` caches per place id with the
timestamp of the provider *fetch*: a call within `CACHE_DURATION` of the call
that fetched and stored the record resolves with the identical record without
a new provider request, and a failed lookup never modifies the cache. -/
theorem detailsCache_amended :
    (∀ (cache : List (Nat × CacheEntry)) (t0 t1 : ℤ) (pid : Nat)
       (prov0 prov1 : Except String Nat) (d : Nat) (c1 : List (Nat × CacheEntry)),
       getPlaceDetails cache t0 pid prov0 = (Except.ok d, c1, true) →
       t1 - t0 < CACHE_DURATION →
       getPlaceDetails c1 t1 pid prov1 = (Except.ok d, c1, false)) ∧
    (∀ (cache : List (Nat × CacheEntry)) (now : ℤ) (pid : Nat) (err : String),
       (getPlaceDetails cache now pid (Except.error err)).2.1 = cache) := by
  constructor
  · intro cache t0 t1 pid prov0 prov1 d c1 h hlt
    have hstore : c1 = cacheSet cache pid ⟨d, t0⟩ := by
      rcases hfind : cache.find? (fun kv => kv.1 == pid) with _ | kv
      · simp only [getPlaceDetails, hfind] at h
        cases prov0 with
        | error e => simp at h
        | ok d' =>
          simp only [Prod.mk.injEq] at h
          obtain ⟨hd, hc, -⟩ := h
          cases hd
          exact hc.symm
      · simp only [getPlaceDetails, hfind] at h
        by_cases hfresh : t0 - kv.2.timestamp < CACHE_DURATION
        · rw [if_pos hfresh] at h
          simp at h
        · rw [if_neg hfresh] at h
          cases prov0 with
          | error e => simp at h
          | ok d' =>
            simp only [Prod.mk.injEq] at h
            obtain ⟨hd, hc, -⟩ := h
            cases hd
            exact hc.symm
    subst hstore
    simp only [getPlaceDetails, find?_cacheSet]
    rw [if_pos (by simpa using hlt)]
  · intro cache now pid err
    rcases hfind : cache.find? (fun kv => kv.1 == pid) with _ | kv
    · simp [getPlaceDetails, hfind]
    · simp only [getPlaceDetails, hfind]
      by_cases hfresh : now - kv.2.timestamp < CACHE_DURATION
      · rw [if_pos hfresh]
      · rw [if_neg hfresh]

/-- Witness for the amended C10: a fetch at `t = 0` is served from cache at
`t = 100` with no request, and an erroring lookup leaves the cache empty. -/
theorem detailsCache_amended_witness :
    getPlaceDetails (cacheSet [] 5 ⟨9, 0⟩) 100 5 (Except.error "x") =
      (Except.ok 9, cacheSet [] 5 ⟨9, 0⟩, false) ∧
    (getPlaceDetails [] 33 6 (Except.error "boom")).2.1 = [] :=
  ⟨detailsCache_amended.1 [] 0 100 5 (Except.ok 9) (Except.error "x") 9 _ rfl (by decide),
   detailsCache_amended.2 [] 33 6 "boom"⟩

/-- Claim C10 counterexample: the cached timestamp is the *fetch* time, not
the last success: call 2 succeeds from cache at `t = 299999`, yet call 3 at
`t = 300001` — under 5 minutes after that success — issues a fresh provider
request and returns the new record. -/
theorem detailsCache_counterexample :
    c10SecondCall.1 = Except.ok 42 ∧ c10SecondCall.2.2 = false ∧
    (300001 : ℤ) - 299999 < CACHE_DURATION ∧
    c10ThirdCall.2.2 = true ∧ c10ThirdCall.1 = Except.ok 43 :=
  ⟨rfl, rfl, by decide, rfl, rfl⟩

/-- A step never clears an abort flag. -/
theorem aborted_monotone (s : SessionState) (e : SearchEvent) :
    s.aborted ⊆ (sessionStep s e).aborted := by
  cases e with
  | start sid =>
    cases hact : s.active with
    | none => simp [sessionStep, hact]
    | some prev =>
      simp only [sessionStep, hact]
      exact fun x hx => List.mem_cons_of_mem prev hx
  | complete sid result =>
    simp only [sessionStep]
    by_cases hab : sid ∈ s.aborted
    · rw [if_pos hab]
      exact fun x hx => hx
    · rw [if_neg hab]
      exact fun x hx => hx

/-- A step never forgets a started session. -/
theorem started_monotone (s : SessionState) (e : SearchEvent) :
    s.started ⊆ (sessionStep s e).started := by
  cases e with
  | start sid =>
    cases hact : s.active with
    | none =>
      simp only [sessionStep, hact]
      exact fun x hx => List.mem_cons_of_mem sid hx
    | some prev =>
      simp only [sessionStep, hact]
      exact fun x hx => List.mem_cons_of_mem sid hx
  | complete sid result =>
    simp only [sessionStep]
    by_cases hab : sid ∈ s.aborted
    · rw [if_pos hab]
      exact fun x hx => hx
    · rw [if_neg hab]
      exact fun x hx => hx

/-- Abort flags persist across any run. -/
theorem run_aborted_monotone (es : List SearchEvent) : ∀ (s : SessionState),
    s.aborted ⊆ (runSearches s es).aborted := by
  induction es with
  | nil => intro s x hx; exact hx
  | cons e rest ih =>
    intro s x hx
    exact ih (sessionStep s e) (aborted_monotone s e hx)

/-- Started sessions persist across any run. -/
theorem run_started_monotone (es : List SearchEvent) : ∀ (s : SessionState),
    s.started ⊆ (runSearches s es).started := by
  induction es with
  | nil => intro s x hx; exact hx
  | cons e rest ih =>
    intro s x hx
    exact ih (sessionStep s e) (started_monotone s e hx)

/-- The initial hook state satisfies the session invariant. -/
theorem sessionInv_init : SessionInv initialSession := by
  intro sid h
  simp [initialSession] at h

/-- One event preserves the session invariant. -/
theorem sessionInv_step (s : SessionState) (e : SearchEvent) (h : SessionInv s) :
    SessionInv (sessionStep s e) := by
  cases e with
  | start sid =>
    intro x hx hnab
    cases hact : s.active with
    | none =>
      simp only [sessionStep, hact] at hx hnab ⊢
      rcases List.mem_cons.mp hx with hx | hx
      · rw [hx]
      · have hsome := h x hx hnab
        rw [hact] at hsome
        exact absurd hsome (by simp)
    | some prev =>
      simp only [sessionStep, hact] at hx hnab ⊢
      rcases List.mem_cons.mp hx with hx | hx
      · rw [hx]
      · have hxprev : x ≠ prev := fun hxp => hnab (hxp ▸ List.mem_cons_self prev s.aborted)
        have hxnab : x ∉ s.aborted := fun hmem => hnab (List.mem_cons_of_mem prev hmem)
        have hsome := h x hx hxnab
        rw [hact] at hsome
        exact absurd (Option.some_injective _ hsome).symm hxprev
  | complete sid result =>
    intro x hx hnab
    simp only [sessionStep] at hx hnab ⊢
    by_cases hab : sid ∈ s.aborted
    · rw [if_pos hab] at hx hnab ⊢
      exact h x hx hnab
    · rw [if_neg hab] at hx hnab ⊢
      exact h x hx hnab

/-- The session invariant holds after any run from a state satisfying it. -/
theorem sessionInv_run (es : List SearchEvent) : ∀ (s : SessionState), SessionInv s →
    SessionInv (runSearches s es) := by
  induction es with
  | nil => intro s h; exact h
  | cons e rest ih => intro s h; exact ih (sessionStep s e) (sessionInv_step s e h)

/-- A session that started during a run is in the started set afterwards. -/
theorem start_mem_started (es : List SearchEvent) (A : Nat) : ∀ (s : SessionState),
    SearchEvent.start A ∈ es → A ∈ (runSearches s es).started := by
  induction es with
  | nil => intro s h; simp at h
  | cons e rest ih =>
    intro s h
    rcases List.mem_cons.mp h with h | h
    · subst h
      apply run_started_monotone rest (sessionStep s (SearchEvent.start A))
      cases hact : s.active with
      | none => simp [sessionStep, hact]
      | some prev => simp [sessionStep, hact]
    · exact ih (sessionStep s e) h

/-- Once a session's token is aborted, no rest of the run can publish its
result. -/
theorem published_safety (q : List SearchEvent) : ∀ (s : SessionState) (A : Nat)
    (r : List Place), A ∈ s.aborted → s.published ≠ some (A, r) →
    (runSearches s q).published ≠ some (A, r) := by
  induction q with
  | nil => intro s A r hab hpub; exact hpub
  | cons e rest ih =>
    intro s A r hab hpub
    apply ih (sessionStep s e) A r (aborted_monotone s e hab)
    cases e with
    | start sid =>
      cases hact : s.active with
      | none => simp only [sessionStep, hact]; exact hpub
      | some prev => simp only [sessionStep, hact]; exact hpub
    | complete sid result =>
      by_cases hab2 : sid ∈ s.aborted
      · simp only [sessionStep, if_pos hab2]; exact hpub
      · simp only [sessionStep, if_neg hab2]
        intro hc
        simp only [Option.some.injEq, Prod.mk.injEq] at hc
        exact hab2 (hc.1 ▸ hab)

/-- A run containing no completion of session `A` cannot newly publish `A`'s
result. -/
theorem published_unchanged_of_no_complete (p : List SearchEvent) : ∀ (s : SessionState)
    (A : Nat) (r : List Place), (∀ res, SearchEvent.complete A res ∉ p) →
    s.published ≠ some (A, r) → (runSearches s p).published ≠ some (A, r) := by
  induction p with
  | nil => intro s A r hno hpub; exact hpub
  | cons e rest ih =>
    intro s A r hno hpub
    apply ih (sessionStep s e) A r (fun res hmem => hno res (List.mem_cons_of_mem e hmem))
    cases e with
    | start sid =>
      cases hact : s.active with
      | none => simp only [sessionStep, hact]; exact hpub
      | some prev => simp only [sessionStep, hact]; exact hpub
    | complete sid result =>
      by_cases hab : sid ∈ s.aborted
      · simp only [sessionStep, if_pos hab]; exact hpub
      · simp only [sessionStep, if_neg hab]
        intro hc
        simp only [Option.some.injEq, Prod.mk.injEq] at hc
        exact hno r (by rw [← hc.1, ← hc.2]; exact List.mem_cons_self _ _)

/-- Runs compose over list append. -/
theorem runSearches_append (p q : List SearchEvent) : ∀ (s : SessionState),
    runSearches s (p ++ q) = runSearches (runSearches s p) q := by
  induction p with
  | nil => intro s; rfl
  | cons e rest ih => intro s; exact ih (sessionStep s e)

/-- Claim C6: if search `B` starts while search `A` is still pending (no
response of `A` was processed yet), then whatever interleaving of further
events follows — including more superseding searches — the published state
never carries `A`'s result: `A`'s token was aborted when `B` (or an
intermediate search) started, and the closure check discards its response. -/
theorem session_supersession (p q : List SearchEvent) (A B : Nat) (r : List Place)
    (hstart : SearchEvent.start A ∈ p) (hne : A ≠ B)
    (hpending : ∀ res, SearchEvent.complete A res ∉ p)
    (hnorestart : SearchEvent.start A ∉ q) :
    (runSearches initialSession (p ++ SearchEvent.start B :: q)).published ≠
      some (A, r) := by
  rw [runSearches_append p (SearchEvent.start B :: q) initialSession]
  have hstarted : A ∈ (runSearches initialSession p).started :=
    start_mem_started p A initialSession hstart
  have hinv : SessionInv (runSearches initialSession p) :=
    sessionInv_run p initialSession sessionInv_init
  have hpub1 : (runSearches initialSession p).published ≠ some (A, r) :=
    published_unchanged_of_no_complete p initialSession A r hpending
      (by simp [initialSession])
  have habort : A ∈ (sessionStep (runSearches initialSession p)
      (SearchEvent.start B)).aborted := by
    by_cases hab : A ∈ (runSearches initialSession p).aborted
    · exact aborted_monotone _ _ hab
    · have hact := hinv A hstarted hab
      simp only [sessionStep, hact]
      exact List.mem_cons_self A _
  have hpub2 : (sessionStep (runSearches initialSession p)
      (SearchEvent.start B)).published ≠ some (A, r) := by
    cases hact : (runSearches initialSession p).active with
    | none => simp only [sessionStep, hact]; exact hpub1
    | some prev => simp only [sessionStep, hact]; exact hpub1
  exact published_safety q _ A r habort hpub2

/-- Witness for C6: three rapidly superseding searches; session 0's response
arriving after sessions 1 and 2 started is never published. -/
theorem session_supersession_witness :
    (runSearches initialSession ([SearchEvent.start 0] ++ SearchEvent.start 1 ::
      [SearchEvent.start 2, SearchEvent.complete 0 [unratedPlace 9],
       SearchEvent.complete 1 [unratedPlace 5]])).published ≠
      some (0, [unratedPlace 9]) :=
  session_supersession [SearchEvent.start 0]
    [SearchEvent.start 2, SearchEvent.complete 0 [unratedPlace 9],
     SearchEvent.complete 1 [unratedPlace 5]] 0 1 [unratedPlace 9]
    (by decide) (by decide) (fun res h => by simp at h) (by decide)

end PlacePulse
